import Mathlib

set_option maxHeartbeats 1000000

/-!
Shallow embedding of `src/main.rs` of `phdb_create_images_zip`.

The single Lambda handler `func` (main.rs lines 40-364) is modelled as a pure
function from the inbound JSON payload and an environment oracle (results of
the S3 calls, of the image-combiner rendering calls and of the local file
operations) to an outcome (a serialized `Response`, or a panic of one of the
`unwrap()` calls) together with an observation trace (archive entries built,
render calls issued, publish attempts, and whether the scratch zip file at
`/mnt/phdb/{item_code}_images.zip` still exists when the handler returns).

Machine integers: the only integer in the program is `image_count : u32`;
it is modelled as a `Nat` with the `< 2^32` bound enforced at parse time,
exactly where `str::parse::<u32>` enforces it.  Byte payloads are opaque
`List Nat` values: the program never inspects image bytes, it only moves
them around.  Infallible steps of the source (`res.body.unwrap()` on a
successful GET, `metadata().unwrap()`, and `remove_file(..).unwrap()`) are
modelled as succeeding; every fallible call is driven by the oracle.
-/

/-- Model of `serde_json::Value`.  A JSON number is carried as its compact
serialized literal (`serde_json` prints a number back exactly as its stored
form; the program only ever turns the value into a string, so the literal is
the faithful observable). -/
inductive Json where
  | null
  | bool (b : Bool)
  | num (lit : String)
  | str (s : String)
  | arr (elems : List Json)
  | obj (fields : List (String × Json))

def hexDigit (n : Nat) : String :=
  String.singleton (Char.ofNat (if n < 10 then 48 + n else 87 + n))

/-- One character of `serde_json`'s string escaping. -/
def escapeChar (c : Char) : String :=
  if c = '"' then "\\\""
  else if c = '\\' then "\\\\"
  else if c = '\x08' then "\\b"
  else if c = '\x0c' then "\\f"
  else if c = '\n' then "\\n"
  else if c = '\r' then "\\r"
  else if c.toNat < 32 then "\\u00" ++ hexDigit (c.toNat / 16) ++ hexDigit (c.toNat % 16)
  else String.singleton c

def quoteJson (s : String) : String :=
  "\"" ++ String.join (s.toList.map escapeChar) ++ "\""

mutual

/-- Compact serialization of a JSON value: the behaviour of
`serde_json::Value::to_string()` (its `Display` instance).  In particular a
string value serializes WITH surrounding quotes. -/
def Json.render : Json → String
  | .null => "null"
  | .bool b => if b then "true" else "false"
  | .num lit => lit
  | .str s => quoteJson s
  | .arr xs => "[" ++ renderSeq xs ++ "]"
  | .obj fs => "\x7b" ++ renderFields fs ++ "\x7d"

def renderSeq : List Json → String
  | [] => ""
  | [x] => Json.render x
  | x :: y :: rest => Json.render x ++ "," ++ renderSeq (y :: rest)

def renderFields : List (String × Json) → String
  | [] => ""
  | [(k, v)] => quoteJson k ++ ":" ++ Json.render v
  | (k, v) :: e :: rest => quoteJson k ++ ":" ++ Json.render v ++ "," ++ renderFields (e :: rest)

end

def lookupField : List (String × Json) → String → Option Json
  | [], _ => none
  | (k', v) :: rest, k => if k' = k then some v else lookupField rest k

/-- `Value::get(key)`: `Some` only when the value is an object holding the key. -/
def Json.get : Json → String → Option Json
  | .obj fields, k => lookupField fields k
  | _, _ => none

/-- `Value::as_str()`: `Some` exactly on JSON strings. -/
def asStr : Json → Option String
  | .str s => some s
  | _ => none

def digitsVal (cs : List Char) : Nat :=
  cs.foldl (fun a c => a * 10 + (c.toNat - 48)) 0

/-- `str::parse::<u32>()`: an optional leading `+`, then one or more ASCII
digits, value below `2^32`; anything else is a parse error. -/
def parseU32 (s : String) : Option Nat :=
  let cs := s.toList
  let ds := match cs with
    | '+' :: rest => rest
    | _ => cs
  if ds.isEmpty then none
  else if ds.all Char.isDigit then
    if digitsVal ds < 4294967296 then some (digitsVal ds) else none
  else none

/-- `struct SizeTable` (main.rs lines 18-23). -/
structure SizeTable where
  head : List String
  body : List (List String)
deriving Repr, DecidableEq

/-- `struct ItemSize` (main.rs lines 10-16). -/
structure ItemSize where
  size_table : Option SizeTable
  size_description : Option String
  size_zh : String
deriving Repr, DecidableEq

def asStrList : List Json → Option (List String)
  | [] => some []
  | j :: rest =>
    match asStr j, asStrList rest with
    | some s, some l => some (s :: l)
    | _, _ => none

/-- `Vec<String>` deserialization. -/
def asStringList : Json → Option (List String)
  | .arr xs => asStrList xs
  | _ => none

def asRowsList : List Json → Option (List (List String))
  | [] => some []
  | j :: rest =>
    match asStringList j, asRowsList rest with
    | some r, some l => some (r :: l)
    | _, _ => none

/-- `Vec<Vec<String>>` deserialization. -/
def asRows : Json → Option (List (List String))
  | .arr xs => asRowsList xs
  | _ => none

/-- `serde` deserialization of `SizeTable`: an object with required fields
`head : Vec<String>` and `body : Vec<Vec<String>>`. -/
def parseSizeTable (j : Json) : Option SizeTable :=
  match j with
  | .obj _ =>
    match j.get "head", j.get "body" with
    | some h, some b =>
      match asStringList h, asRows b with
      | some hs, some rows => some ⟨hs, rows⟩
      | _, _ => none
    | _, _ => none
  | _ => none

/-- A missing or null `Option<T>` field is `None`; otherwise `T` must parse. -/
def parseOptTable : Option Json → Option (Option SizeTable)
  | none => some none
  | some .null => some none
  | some v => (parseSizeTable v).map some

def parseOptString : Option Json → Option (Option String)
  | none => some none
  | some .null => some none
  | some (.str s) => some (some s)
  | some _ => none

/-- `serde_json::from_value::<ItemSize>`: an object with optional
`size_table`, optional `size_description` and required string `size_zh`. -/
def parseItemSize (j : Json) : Option ItemSize :=
  match j with
  | .obj _ =>
    match j.get "size_zh" with
    | some (.str z) =>
      match parseOptTable (j.get "size_table"), parseOptString (j.get "size_description") with
      | some t, some d => some ⟨t, d, z⟩
      | _, _ => none
    | _ => none
  | _ => none

/-- `const SEPARATOR_PATTERN: &[char] = &['，', '、', ','];` (main.rs line 31). -/
def isSeparator (c : Char) : Bool :=
  c = '，' || c = '、' || c = ','

/-- Rust `str::trim`, character-wise: drop whitespace from both ends. -/
def trimChars (cs : List Char) : List Char :=
  ((cs.dropWhile Char.isWhitespace).reverse.dropWhile Char.isWhitespace).reverse

def strTrim (s : String) : String :=
  ⟨trimChars s.data⟩

/-- `s.replace(SEPARATOR_PATTERN, " ")`: each separator character becomes one
space (the replacement string is a single character, so a character map is
exact). -/
def replaceSeparators (s : String) : String :=
  ⟨s.data.map (fun c => if isSeparator c then ' ' else c)⟩

/-- Rust `str::split` on a character predicate: every matching character is a
boundary, so adjacent matches yield empty pieces, and the empty string yields
one empty piece. -/
def splitChars (p : Char → Bool) : List Char → List Char → List String
  | [], acc => [⟨acc.reverse⟩]
  | c :: rest, acc =>
    if p c then ⟨acc.reverse⟩ :: splitChars p rest []
    else splitChars p rest (c :: acc)

def splitStr (p : Char → Bool) (s : String) : List String :=
  splitChars p s.data []

/-- Header list for the table variant (main.rs lines 229-234): replace the
separators of `size_zh` by spaces, trim, then split on every single space
character (Rust `split(' ')`, which yields empty pieces between adjacent
spaces). -/
def tableHead (size_zh : String) : List String :=
  splitStr (fun c => c = ' ') (strTrim (replaceSeparators size_zh))

/-- Text for the single-line variant (main.rs lines 256-258): trim first,
then replace each separator character by one space. -/
def singleLineText (size_zh : String) : String :=
  replaceSeparators (strTrim size_zh)

/-- Handler response (main.rs lines 25-29). -/
structure Response where
  result : String
  message : String
deriving Repr, DecidableEq

/-- Result of one `get_object` call together with the subsequent body read:
the object's bytes, `NoSuchKey`, any other service error, or a failure of
`read_to_end` on the body stream. -/
inductive FetchRes where
  | ok (bytes : List Nat)
  | noSuchKey
  | otherErr
  | readErr
deriving Repr, DecidableEq

/-- Environment oracle: the outcome of every fallible external step the
handler may perform, keyed by the same data the source passes to it. -/
structure Env where
  s3get : String → String → FetchRes
  tableBaseOk : List String → List (List String) → Bool
  renderTableRes : List String → List (List String) → Option (List Nat)
  renderTextRes : String → Option (List Nat)
  createOk : Bool
  zipStartOk : String → Bool
  zipWriteOk : String → Bool
  finishOk : Bool
  openOk : Bool
  readOk : Bool
  putOk : String → Bool

/-- One rendering call issued to the image combiner. -/
inductive RenderCall where
  | table (head : List String) (rows : List (List String))
  | text (content : String)
deriving Repr, DecidableEq

/-- Observation trace of one invocation.  `scratch` is whether the staging
zip file `/mnt/phdb/{item_code}_images.zip` still exists when the handler
returns; `entries` is the (name, bytes) content of the last fully built
archive, `[]` when the build never completed; `publishes` lists the keys of
attempted `put_object` calls to the output bucket. -/
structure Trace where
  scratch : Bool
  entries : List (String × List Nat)
  fontFetched : Bool
  renders : List RenderCall
  publishes : List String
deriving Repr, DecidableEq

def emptyTrace : Trace := ⟨false, [], false, [], []⟩

/-- Handler outcome: a serialized `Response`, or a panic of an `unwrap()`. -/
inductive Outcome where
  | panicked
  | resp (r : Response)
deriving Repr, DecidableEq

def picsBucket : String := "phitemspics"
def fontBucket : String := "phfunctionresource"
def fontKey : String := "TaipeiSansTCBeta-Light.ttf"

/-- Input photo key `{item_code}_{no}.jpeg` (main.rs line 88). -/
def photoKey (item : String) (no : Nat) : String :=
  item ++ "_" ++ toString no ++ ".jpeg"

/-- Archive photo entry name `{item_code}_{i+1}.jpg` (main.rs lines 144, 285). -/
def entryName (item : String) (i : Nat) : String :=
  item ++ "_" ++ toString i ++ ".jpg"

/-- Archive size entry name `{item_code}_size.jpg` (main.rs line 301). -/
def sizeEntryName (item : String) : String :=
  item ++ "_size.jpg"

/-- Output bundle key `{item_code}.zip` (main.rs lines 199, 348). -/
def outKey (item : String) : String :=
  item ++ ".zip"

/-- The staging path `/mnt/phdb/{item_code}_images.zip` (main.rs line 125). -/
def zipFilePath (item : String) : String :=
  "/mnt/phdb/" ++ item ++ "_images.zip"

/-- The retrieval loop (main.rs lines 85-124), fetching slots `no`,
`no+1`, ... for `k` more slots: `NoSuchKey` skips the slot and continues,
any other GET failure or a body-read failure aborts with the corresponding
error response, and retrieved byte payloads accumulate in slot order. -/
def fetchLoop (env : Env) (item : String) : Nat → Nat → Except Response (List (List Nat))
  | _, 0 => .ok []
  | no, k+1 =>
    match env.s3get picsBucket (photoKey item no) with
    | .noSuchKey => fetchLoop env item (no+1) k
    | .otherErr => .error ⟨"error", "error when get item image"⟩
    | .readErr => .error ⟨"error", "error when read image bytes"⟩
    | .ok b =>
      match fetchLoop env item (no+1) k with
      | .ok rest => .ok (b :: rest)
      | .error e => .error e

def fetchPhotos (env : Env) (item : String) (count : Nat) : Except Response (List (List Nat)) :=
  fetchLoop env item 1 count

/-- Bytes of the successfully retrieved slots among `no .. no+k-1`, in slot
order; absent or failing slots contribute nothing. -/
def okSlots (env : Env) (item : String) : Nat → Nat → List (List Nat)
  | _, 0 => []
  | no, k+1 =>
    match env.s3get picsBucket (photoKey item no) with
    | .ok b => b :: okSlots env item (no+1) k
    | _ => okSlots env item (no+1) k

/-- The photo-entry writing loop (main.rs lines 143-159 and 284-300): for the
`i`-th remaining payload (0-based running index), `start_file` then
`write_all` the entry named with the 1-based emission index; on either
failure the scratch file is removed and the error response returned. -/
def writeLoop (env : Env) (item : String) : List (List Nat) → Nat → Except Response (List (String × List Nat))
  | [], _ => .ok []
  | b :: rest, i =>
    if env.zipStartOk (entryName item (i+1)) = false then
      .error ⟨"error", "error when zip start file error"⟩
    else if env.zipWriteOk (entryName item (i+1)) = false then
      .error ⟨"error", "error when zip write file error"⟩
    else
      match writeLoop env item rest (i+1) with
      | .ok ents => .ok ((entryName item (i+1), b) :: ents)
      | .error e => .error e

/-- The photos-only branch (main.rs lines 129-214), entered when `body` is
null.  Note the two exit paths that do NOT remove the scratch file: the
re-open failure (lines 175-183) and the read-back failure (lines 186-194). -/
def runNoSize (env : Env) (item : String) (photos : List (List Nat)) : Outcome × Trace :=
  if env.createOk = false then
    (.resp ⟨"error", "error when create zip file"⟩, emptyTrace)
  else
    match writeLoop env item photos 0 with
    | .error r => (.resp r, emptyTrace)
    | .ok ents =>
      if env.finishOk = false then
        (.resp ⟨"error", "error when zip finish error"⟩, emptyTrace)
      else if env.openOk = false then
        (.resp ⟨"error", "error when open file error"⟩,
          { emptyTrace with scratch := true, entries := ents })
      else if env.readOk = false then
        (.resp ⟨"error", "error when read zip file"⟩,
          { emptyTrace with scratch := true, entries := ents })
      else if env.putOk (outKey item) = false then
        (.resp ⟨"error", "error when put image"⟩,
          { emptyTrace with entries := ents, publishes := [outKey item] })
      else
        (.resp ⟨"ok", ""⟩,
          { emptyTrace with entries := ents, publishes := [outKey item] })

/-- Archive construction and publish for the with-size branch (main.rs lines
271-363).  The size entry is written after all photo entries.  The re-open
failure (lines 325-334, whose message reads "error when create zip file" in
the source) does NOT remove the scratch file; the read-back failure here
(lines 337-343) does. -/
def buildAndPublish (env : Env) (item : String) (photos : List (List Nat))
    (sizeBytes : List Nat) (t : Trace) : Outcome × Trace :=
  if env.createOk = false then
    (.resp ⟨"error", "error when create zip file"⟩, t)
  else
    match writeLoop env item photos 0 with
    | .error r => (.resp r, t)
    | .ok photoEnts =>
      if env.zipStartOk (sizeEntryName item) = false then
        (.resp ⟨"error", "error when zip start file error"⟩, t)
      else if env.zipWriteOk (sizeEntryName item) = false then
        (.resp ⟨"error", "error when zip write file error"⟩, t)
      else
        if env.finishOk = false then
          (.resp ⟨"error", "error when zip finish error"⟩, t)
        else if env.openOk = false then
          (.resp ⟨"error", "error when create zip file"⟩,
            { t with scratch := true, entries := photoEnts ++ [(sizeEntryName item, sizeBytes)] })
        else if env.readOk = false then
          (.resp ⟨"error", "error when reading zip file"⟩,
            { t with entries := photoEnts ++ [(sizeEntryName item, sizeBytes)] })
        else if env.putOk (outKey item) = false then
          (.resp ⟨"error", "put file error"⟩,
            { t with entries := photoEnts ++ [(sizeEntryName item, sizeBytes)],
                     publishes := [outKey item] })
        else
          (.resp ⟨"ok", ""⟩,
            { t with entries := photoEnts ++ [(sizeEntryName item, sizeBytes)],
                     publishes := [outKey item] })

/-- The with-size branch (main.rs lines 216-363): fetch the font asset, pick
the table or single-line rendering, then build and publish. -/
def runWithSize (env : Env) (item : String) (isz : ItemSize)
    (photos : List (List Nat)) : Outcome × Trace :=
  let t0 : Trace := { emptyTrace with fontFetched := true }
  match env.s3get fontBucket fontKey with
  | .ok _ =>
    match isz.size_table with
    | some tbl =>
      let hd := tableHead isz.size_zh
      if env.tableBaseOk hd tbl.body = false then
        (.resp ⟨"error", "error when create table base error"⟩, t0)
      else
        let t1 := { t0 with renders := [.table hd tbl.body] }
        match env.renderTableRes hd tbl.body with
        | none => (.resp ⟨"error", "error when create table image error"⟩, t1)
        | some sizeBytes => buildAndPublish env item photos sizeBytes t1
    | none =>
      let txt := singleLineText isz.size_zh
      let t1 := { t0 with renders := [.text txt] }
      match env.renderTextRes txt with
      | none => (.resp ⟨"error", "error when create text image error"⟩, t1)
      | some sizeBytes => buildAndPublish env item photos sizeBytes t1
  | _ => (.resp ⟨"error", "can not found font file"⟩, t0)

/-- The `body` field handling (main.rs lines 68-82), after the presence
check: null means no size data, otherwise the field must deserialize as
`ItemSize`. -/
def decodeBody (bodyVal : Json) : Except Response (Option ItemSize) :=
  match bodyVal with
  | .null => .ok none
  | _ =>
    match parseItemSize bodyVal with
    | some isz => .ok (some isz)
    | none => .error ⟨"error", "error when parse body field error"⟩

/-- The Lambda handler `func` (main.rs lines 40-364).  A missing `item_code`
or `image_count` yields the corresponding error response; a present
non-string `item_code` panics (`as_str().unwrap()`, line 42); a missing
`body` key panics (`get("body").unwrap()`, line 68); `image_count` is
serialized with `to_string()` and parsed as `u32`. -/
def func (payload : Json) (env : Env) : Outcome × Trace :=
  match payload.get "item_code" with
  | none => (.resp ⟨"error", "item_code not show"⟩, emptyTrace)
  | some v =>
    match asStr v with
    | none => (.panicked, emptyTrace)
    | some item =>
      match payload.get "image_count" with
      | none => (.resp ⟨"error", "image_count not show"⟩, emptyTrace)
      | some icv =>
        match parseU32 icv.render with
        | none => (.resp ⟨"error", "error when parse item count"⟩, emptyTrace)
        | some count =>
          match payload.get "body" with
          | none => (.panicked, emptyTrace)
          | some bodyVal =>
            match decodeBody bodyVal with
            | .error r => (.resp r, emptyTrace)
            | .ok iszOpt =>
              match fetchPhotos env item count with
              | .error r => (.resp r, emptyTrace)
              | .ok photos =>
                match iszOpt with
                | none => runNoSize env item photos
                | some isz => runWithSize env item isz photos

/-- A three-field request payload as in the spec's inbound schema. -/
def mkPayload (item : String) (cnt : Json) (bodyVal : Json) : Json :=
  .obj [("item_code", .str item), ("image_count", cnt), ("body", bodyVal)]

/-- A retrieval result that neither aborts the loop nor panics: the object's
bytes or `NoSuchKey`. -/
def nonFatal : FetchRes → Bool
  | .ok _ => true
  | .noSuchKey => true
  | .otherErr => false
  | .readErr => false

/-- Photo entries named by 1-based emission index starting after `i`. -/
def numberedFrom (item : String) : List (List Nat) → Nat → List (String × List Nat)
  | [], _ => []
  | b :: rest, i => (entryName item (i+1), b) :: numberedFrom item rest (i+1)

/-- Follows the spec's words (section 8, table normalization): header tokens
are obtained by splitting the trimmed `size_zh` on the separator characters
and collapsing, so that no empty tokens remain.  Stated for comparison with
`tableHead`, which is translated from the source. -/
def specHeadTokens (s : String) : List String :=
  (splitStr (fun c => isSeparator c || c = ' ') (strTrim s)).filter (fun p => p ≠ "")

/-- Follows the spec's words (section 4.2, SingleLine variant): the trimmed
label with every run of separator characters collapsed to a single space.
Stated for comparison with `singleLineText`, which is translated from the
source. -/
def specCollapsedText (s : String) : String :=
  String.intercalate " " ((splitStr isSeparator (strTrim s)).filter (fun p => p ≠ ""))

/-- Oracle success of the size-rendering stage for a given `ItemSize`: the
table base builds and the corresponding rendering call returns bytes. -/
def renderOk (env : Env) (isz : ItemSize) : Bool :=
  match isz.size_table with
  | some tbl =>
    env.tableBaseOk (tableHead isz.size_zh) tbl.body &&
      (env.renderTableRes (tableHead isz.size_zh) tbl.body).isSome
  | none => (env.renderTextRes (singleLineText isz.size_zh)).isSome

/-- A benign environment: every external call succeeds. -/
def baseEnv : Env :=
  { s3get := fun _ _ => .ok [5]
    tableBaseOk := fun _ _ => true
    renderTableRes := fun _ _ => some [7]
    renderTextRes := fun _ => some [8]
    createOk := true
    zipStartOk := fun _ => true
    zipWriteOk := fun _ => true
    finishOk := true
    openOk := true
    readOk := true
    putOk := fun _ => true }

/-- Environment where every photo slot is absent. -/
def allAbsentEnv : Env :=
  { baseEnv with
    s3get := fun _ _ => .noSuchKey }

/-- Environment where fetching slot 2 of item A fails with a non-absent
(service) error, as in the spec's permission-denied scenario. -/
def fatalSlot2Env : Env :=
  { baseEnv with
    s3get := fun _ k =>
      if k = "A_2.jpeg" then .otherErr
      else .ok [5] }

/-- Environment of the spec's A1 scenario: slots 1 and 3 hold distinct
payloads, slot 2 is absent, everything else succeeds. -/
def a1Env : Env :=
  { baseEnv with
    s3get := fun _ k =>
      if k = "A1_1.jpeg" then .ok [10]
      else if k = "A1_2.jpeg" then .noSuchKey
      else if k = "A1_3.jpeg" then .ok [30]
      else .ok [5] }

/-- Environment where re-opening the finished scratch archive fails. -/
def openFailEnv : Env :=
  { baseEnv with openOk := false }

/-- Request body carrying a size table whose `size_zh` holds two adjacent
separator characters. -/
def c6Body : Json :=
  .obj [("size_table", .obj [("head", .arr [.str "H1"]), ("body", .arr [.arr [.str "60"]])]),
        ("size_zh", .str "S，，M")]

/-- Request body with no tabular data and adjacent separators in `size_zh`. -/
def c7Body : Json :=
  .obj [("size_zh", .str "S，，M")]

/-- Body for the witness of the recomputed-header theorem: a supplied head
X that must be discarded. -/
def c6WitnessBody : Json :=
  .obj [("size_table", .obj [("head", .arr [.str "X"]), ("body", .arr [.arr [.str "60"]])]),
        ("size_zh", .str "S，M")]

/-- Body for the witness of the entry-ordering theorem. -/
def c9Body : Json :=
  .obj [("size_zh", .str "L")]

/-- Body for the witness of the single-line-normalization theorem. -/
def c7WitnessBody : Json :=
  .obj [("size_zh", .str "S，M，L")]

-- Sanity checks of the embedding on concrete values.
example : Json.render (.str "3") = "\"3\"" := rfl
example : Json.render (.num "3") = "3" := rfl
example : parseU32 "3" = some 3 := by decide
example : parseU32 "\"3\"" = none := by decide
example : tableHead "S，，M" = ["S", "", "M"] := by decide
example : singleLineText "S，M，L" = "S M L" := by decide
example : specHeadTokens "S，，M" = ["S", "M"] := by decide
example : specCollapsedText "S，，M" = "S M" := by decide

theorem get_item_code (item : String) (cnt bJ : Json) :
    (mkPayload item cnt bJ).get "item_code" = some (.str item) := rfl

theorem get_image_count (item : String) (cnt bJ : Json) :
    (mkPayload item cnt bJ).get "image_count" = some cnt := rfl

theorem get_body (item : String) (cnt bJ : Json) :
    (mkPayload item cnt bJ).get "body" = some bJ := rfl

theorem func_mk_core (item : String) (cnt bJ : Json) (env : Env) :
    func (mkPayload item cnt bJ) env =
      match parseU32 (Json.render cnt) with
      | none => (.resp ⟨"error", "error when parse item count"⟩, emptyTrace)
      | some count =>
        match decodeBody bJ with
        | .error r => (.resp r, emptyTrace)
        | .ok iszOpt =>
          match fetchPhotos env item count with
          | .error r => (.resp r, emptyTrace)
          | .ok photos =>
            match iszOpt with
            | none => runNoSize env item photos
            | some isz => runWithSize env item isz photos := rfl

theorem func_mk (item : String) (cnt bJ : Json) (env : Env) (n : Nat)
    (hc : parseU32 cnt.render = some n) :
    func (mkPayload item cnt bJ) env =
      match decodeBody bJ with
      | .error r => (.resp r, emptyTrace)
      | .ok iszOpt =>
        match fetchPhotos env item n with
        | .error r => (.resp r, emptyTrace)
        | .ok photos =>
          match iszOpt with
          | none => runNoSize env item photos
          | some isz => runWithSize env item isz photos := by
  rw [func_mk_core, hc]

theorem func_mk_count_err (item : String) (cnt bJ : Json) (env : Env)
    (hc : parseU32 cnt.render = none) :
    func (mkPayload item cnt bJ) env =
      (.resp ⟨"error", "error when parse item count"⟩, emptyTrace) := by
  rw [func_mk_core, hc]

theorem fetchLoop_succ (env : Env) (item : String) (no k : Nat) :
    fetchLoop env item no (k+1) =
      match env.s3get picsBucket (photoKey item no) with
      | .noSuchKey => fetchLoop env item (no+1) k
      | .otherErr => .error ⟨"error", "error when get item image"⟩
      | .readErr => .error ⟨"error", "error when read image bytes"⟩
      | .ok b =>
        match fetchLoop env item (no+1) k with
        | .ok rest => .ok (b :: rest)
        | .error e => .error e := rfl

theorem okSlots_succ (env : Env) (item : String) (no k : Nat) :
    okSlots env item no (k+1) =
      match env.s3get picsBucket (photoKey item no) with
      | .ok b => b :: okSlots env item (no+1) k
      | _ => okSlots env item (no+1) k := rfl

theorem fetchLoop_all_ok (env : Env) (item : String) :
    ∀ (k no : Nat),
    (∀ i, no ≤ i → i < no + k → nonFatal (env.s3get picsBucket (photoKey item i)) = true) →
    fetchLoop env item no k = .ok (okSlots env item no k) := by
  intro k
  induction k with
  | zero => intro no _; rfl
  | succ k ih =>
    intro no h
    have h0 : nonFatal (env.s3get picsBucket (photoKey item no)) = true :=
      h no le_rfl (by omega)
    have hrest := ih (no+1) (fun i h1 h2 => h i (by omega) (by omega))
    rw [fetchLoop_succ, okSlots_succ]
    cases hres : env.s3get picsBucket (photoKey item no) with
    | ok b => rw [hrest]
    | noSuchKey => exact hrest
    | otherErr => rw [hres] at h0; simp [nonFatal] at h0
    | readErr => rw [hres] at h0; simp [nonFatal] at h0

theorem fetchLoop_fatal (env : Env) (item : String) (j : Nat)
    (hj : nonFatal (env.s3get picsBucket (photoKey item j)) = false) :
    ∀ (k no : Nat), no ≤ j → j < no + k →
    (∀ i, no ≤ i → i < j → nonFatal (env.s3get picsBucket (photoKey item i)) = true) →
    ∃ m, fetchLoop env item no k = .error ⟨"error", m⟩ := by
  intro k
  induction k with
  | zero => intro no h1 h2 _; omega
  | succ k ih =>
    intro no h1 h2 hpre
    rw [fetchLoop_succ]
    by_cases hno : no = j
    · subst hno
      cases hres : env.s3get picsBucket (photoKey item no) with
      | ok b => rw [hres] at hj; simp [nonFatal] at hj
      | noSuchKey => rw [hres] at hj; simp [nonFatal] at hj
      | otherErr => exact ⟨"error when get item image", rfl⟩
      | readErr => exact ⟨"error when read image bytes", rfl⟩
    · have hlt : no < j := lt_of_le_of_ne h1 hno
      have h0 : nonFatal (env.s3get picsBucket (photoKey item no)) = true :=
        hpre no le_rfl hlt
      have hrec := ih (no+1) (by omega) (by omega)
        (fun i ha hb => hpre i (by omega) hb)
      obtain ⟨m, hm⟩ := hrec
      cases hres : env.s3get picsBucket (photoKey item no) with
      | ok b => exact ⟨m, by rw [hm]⟩
      | noSuchKey => exact ⟨m, hm⟩
      | otherErr => rw [hres] at h0; simp [nonFatal] at h0
      | readErr => rw [hres] at h0; simp [nonFatal] at h0

theorem fetchPhotos_all_ok (env : Env) (item : String) (n : Nat)
    (h : ∀ i, 1 ≤ i → i ≤ n → nonFatal (env.s3get picsBucket (photoKey item i)) = true) :
    fetchPhotos env item n = .ok (okSlots env item 1 n) :=
  fetchLoop_all_ok env item n 1 (fun i ha hb => h i ha (by omega))

theorem fetchPhotos_fatal (env : Env) (item : String) (n j : Nat)
    (h1 : 1 ≤ j) (h2 : j ≤ n)
    (hpre : ∀ i, 1 ≤ i → i < j → nonFatal (env.s3get picsBucket (photoKey item i)) = true)
    (hj : nonFatal (env.s3get picsBucket (photoKey item j)) = false) :
    ∃ m, fetchPhotos env item n = .error ⟨"error", m⟩ :=
  fetchLoop_fatal env item j hj n 1 (by omega) (by omega) hpre

theorem writeLoop_all_ok (env : Env) (item : String)
    (hs : ∀ s, env.zipStartOk s = true) (hw : ∀ s, env.zipWriteOk s = true) :
    ∀ (bs : List (List Nat)) (i : Nat),
    writeLoop env item bs i = .ok (numberedFrom item bs i) := by
  intro bs
  induction bs with
  | nil => intro i; rfl
  | cons b rest ih =>
    intro i
    simp [writeLoop, numberedFrom, hs, hw, ih]

theorem writeLoop_ok_shape (env : Env) (item : String) :
    ∀ (bs : List (List Nat)) (i : Nat) (l : List (String × List Nat)),
    writeLoop env item bs i = .ok l → l = numberedFrom item bs i := by
  intro bs
  induction bs with
  | nil =>
    intro i l h
    simp [writeLoop] at h
    simp [numberedFrom, h.symm]
  | cons b rest ih =>
    intro i l h
    rw [show writeLoop env item (b :: rest) i =
        (if env.zipStartOk (entryName item (i+1)) = false then
          .error ⟨"error", "error when zip start file error"⟩
        else if env.zipWriteOk (entryName item (i+1)) = false then
          .error ⟨"error", "error when zip write file error"⟩
        else
          match writeLoop env item rest (i+1) with
          | .ok ents => .ok ((entryName item (i+1), b) :: ents)
          | .error e => .error e) from rfl] at h
    split at h
    · exact absurd h (by simp)
    · split at h
      · exact absurd h (by simp)
      · cases hr : writeLoop env item rest (i+1) with
        | error e => rw [hr] at h; exact absurd h (by simp)
        | ok ents =>
          rw [hr] at h
          simp at h
          rw [← h, ih (i+1) ents hr]
          rfl

theorem runNoSize_all_ok (env : Env) (item : String) (photos : List (List Nat))
    (hcr : env.createOk = true) (hs : ∀ s, env.zipStartOk s = true)
    (hw : ∀ s, env.zipWriteOk s = true) (hfin : env.finishOk = true)
    (ho : env.openOk = true) (hr : env.readOk = true) (hp : ∀ k, env.putOk k = true) :
    runNoSize env item photos =
      (.resp ⟨"ok", ""⟩,
       { emptyTrace with entries := numberedFrom item photos 0,
                         publishes := [outKey item] }) := by
  unfold runNoSize
  rw [writeLoop_all_ok env item hs hw photos 0]
  simp [hcr, hfin, ho, hr, hp]

theorem buildAndPublish_all_ok (env : Env) (item : String) (photos : List (List Nat))
    (sizeBytes : List Nat) (t : Trace)
    (hcr : env.createOk = true) (hs : ∀ s, env.zipStartOk s = true)
    (hw : ∀ s, env.zipWriteOk s = true) (hfin : env.finishOk = true)
    (ho : env.openOk = true) (hr : env.readOk = true) (hp : ∀ k, env.putOk k = true) :
    buildAndPublish env item photos sizeBytes t =
      (.resp ⟨"ok", ""⟩,
       { t with entries := numberedFrom item photos 0 ++ [(sizeEntryName item, sizeBytes)],
                publishes := [outKey item] }) := by
  unfold buildAndPublish
  rw [writeLoop_all_ok env item hs hw photos 0]
  simp [hcr, hs, hw, hfin, ho, hr, hp]

theorem buildAndPublish_renders (env : Env) (item : String) (photos : List (List Nat))
    (sizeBytes : List Nat) (t : Trace) :
    (buildAndPublish env item photos sizeBytes t).2.renders = t.renders := by
  unfold buildAndPublish
  repeat' split
  all_goals rfl

/-- C1: the claim asserts the scratch archive file is removed on every exit
path.  The code violates it: when re-opening the finished scratch archive
fails (main.rs lines 175-183), the handler returns the error response
without calling remove_file, and the scratch file remains. -/
theorem c1_scratch_left_on_open_failure :
    (func (mkPayload "A" (.num "0") .null) openFailEnv).1 =
       .resp ⟨"error", "error when open file error"⟩ ∧
    (func (mkPayload "A" (.num "0") .null) openFailEnv).2.scratch = true := by
  decide

/-- C2: an absent slot (NoSuchKey) is skipped with no archive entry and the
retrieval loop continues, collecting exactly the successfully retrieved
slots in order; any other retrieval failure ends the invocation at once
with an error outcome and an empty trace, so no publish is attempted. -/
theorem c2_absent_skipped_fatal_aborts :
    (∀ (env : Env) (item : String) (n : Nat),
      (∀ i, 1 ≤ i → i ≤ n → nonFatal (env.s3get picsBucket (photoKey item i)) = true) →
      fetchPhotos env item n = .ok (okSlots env item 1 n)) ∧
    (∀ (env : Env) (item : String) (cnt : Json) (n j : Nat),
      parseU32 cnt.render = some n →
      1 ≤ j → j ≤ n →
      (∀ i, 1 ≤ i → i < j → nonFatal (env.s3get picsBucket (photoKey item i)) = true) →
      nonFatal (env.s3get picsBucket (photoKey item j)) = false →
      ∃ m, func (mkPayload item cnt .null) env = (.resp ⟨"error", m⟩, emptyTrace)) := by
  constructor
  · intro env item n h
    exact fetchPhotos_all_ok env item n h
  · intro env item cnt n j hc h1 h2 hpre hj
    obtain ⟨m, hm⟩ := fetchPhotos_fatal env item n j h1 h2 hpre hj
    refine ⟨m, ?_⟩
    rw [func_mk item cnt .null env n hc, hm]
    rfl

theorem c2_witness :
    (fetchPhotos allAbsentEnv "A" 2 = .ok (okSlots allAbsentEnv "A" 1 2)) ∧
    (∃ m, func (mkPayload "A" (.num "2") .null) fatalSlot2Env =
      (.resp ⟨"error", m⟩, emptyTrace)) :=
  ⟨c2_absent_skipped_fatal_aborts.1 allAbsentEnv "A" 2 (fun _ _ _ => rfl),
   c2_absent_skipped_fatal_aborts.2 fatalSlot2Env "A" (.num "2") 2 2 (by decide)
     (by decide) (by decide)
     (fun i h1 h2 => by
       have hi : i = 1 := by omega
       subst hi
       decide)
     (by decide)⟩

/-- C3: photo entries of the published archive are numbered densely by
successful-retrieval order: on a run where every slot is present or absent
and every later stage succeeds, the handler returns ok and the archive holds
exactly the retrieved payloads, in slot order, named with consecutive
1-based emission indices. -/
theorem c3_dense_numbering (env : Env) (item : String) (cnt : Json) (n : Nat)
    (hc : parseU32 cnt.render = some n)
    (hph : ∀ i, 1 ≤ i → i ≤ n → nonFatal (env.s3get picsBucket (photoKey item i)) = true)
    (hcr : env.createOk = true) (hs : ∀ s, env.zipStartOk s = true)
    (hw : ∀ s, env.zipWriteOk s = true) (hfin : env.finishOk = true)
    (ho : env.openOk = true) (hr : env.readOk = true) (hp : ∀ k, env.putOk k = true) :
    func (mkPayload item cnt .null) env =
      (.resp ⟨"ok", ""⟩,
       { emptyTrace with entries := numberedFrom item (okSlots env item 1 n) 0,
                         publishes := [outKey item] }) := by
  rw [func_mk item cnt .null env n hc, fetchPhotos_all_ok env item n hph]
  exact runNoSize_all_ok env item _ hcr hs hw hfin ho hr hp

/-- Witness: the spec's A1 scenario with image_count 3, slots 1 and 3
present and slot 2 absent yields exactly A1_1.jpg (slot 1) and A1_2.jpg
(slot 3) and result ok. -/
theorem c3_dense_numbering_witness :
    func (mkPayload "A1" (.num "3") .null) a1Env =
      (.resp ⟨"ok", ""⟩,
       { emptyTrace with entries := [("A1_1.jpg", [10]), ("A1_2.jpg", [30])],
                         publishes := ["A1.zip"] }) := by
  have h := c3_dense_numbering a1Env "A1" (.num "3") 3 (by decide)
    (fun i h1 h2 => by interval_cases i <;> decide)
    rfl (fun _ => rfl) (fun _ => rfl) rfl rfl rfl (fun _ => rfl)
  rw [h]
  decide

/-- C4: the claim asserts a payload with no body key behaves like an
explicit null body.  The code violates it: get("body").unwrap() (main.rs
line 68) panics when the key is absent, for every environment. -/
theorem c4_missing_body_key_panics (env : Env) :
    func (.obj [("item_code", .str "A"), ("image_count", .num "1")]) env =
      (.panicked, emptyTrace) := rfl

/-- C5: the claim asserts a JSON string denoting a non-negative integer
parses as the slot count.  The code violates it: Value::to_string()
serializes a string with surrounding quotes, so parse::<u32> always fails
on string-valued image_count, for every environment. -/
theorem c5_string_image_count_rejected (env : Env) :
    func (mkPayload "A" (.str "3") .null) env =
      (.resp ⟨"error", "error when parse item count"⟩, emptyTrace) := rfl

/-- C6 counterexample: with size_zh holding two adjacent separators, the
header list actually passed to the table renderer contains an empty token,
while the claimed normalization (split, collapse, no empty tokens) does not. -/
theorem c6_head_counterexample :
    (func (mkPayload "A" (.num "1") c6Body) baseEnv).2.renders =
      [.table ["S", "", "M"] [["60"]]] ∧
    specHeadTokens "S，，M" = ["S", "M"] ∧
    ¬ ([("S" : String), "", "M"] = ["S", "M"]) := by
  decide

/-- C6 amended: the supplied head field is always discarded; the header
sequence passed to the table renderer equals the separator characters of
size_zh each replaced by a single space, the result trimmed and split on
every single space, which can contain empty tokens. -/
theorem c6_head_recomputed (env : Env) (item : String) (cnt bodyJson : Json) (n : Nat)
    (isz : ItemSize) (tbl : SizeTable) (fb : List Nat)
    (hc : parseU32 cnt.render = some n)
    (hb : decodeBody bodyJson = .ok (some isz))
    (ht : isz.size_table = some tbl)
    (hph : ∀ i, 1 ≤ i → i ≤ n → nonFatal (env.s3get picsBucket (photoKey item i)) = true)
    (hfont : env.s3get fontBucket fontKey = .ok fb)
    (htb : env.tableBaseOk (tableHead isz.size_zh) tbl.body = true) :
    (func (mkPayload item cnt bodyJson) env).2.renders =
      [.table (tableHead isz.size_zh) tbl.body] := by
  have he : func (mkPayload item cnt bodyJson) env =
      runWithSize env item isz (okSlots env item 1 n) := by
    rw [func_mk item cnt bodyJson env n hc, hb, fetchPhotos_all_ok env item n hph]
  rw [he]
  cases hrt : env.renderTableRes (tableHead isz.size_zh) tbl.body with
  | none => simp [runWithSize, hfont, ht, htb, hrt]
  | some sb => simp [runWithSize, hfont, ht, htb, hrt, buildAndPublish_renders]

theorem c6_head_recomputed_witness :
    (func (mkPayload "A" (.num "1") c6WitnessBody) baseEnv).2.renders =
      [.table ["S", "M"] [["60"]]] := by
  have h := c6_head_recomputed baseEnv "A" (.num "1") c6WitnessBody 1
    ⟨some ⟨["X"], [["60"]]⟩, none, "S，M"⟩ ⟨["X"], [["60"]]⟩ [5]
    rfl rfl rfl
    (fun i h1 h2 => by interval_cases i; decide)
    rfl rfl
  rw [h]
  decide

/-- C7 counterexample: with size_zh holding two adjacent separators the
single-line renderer receives two adjacent spaces, while the claimed
normalization collapses the run to one space. -/
theorem c7_collapse_counterexample :
    (func (mkPayload "A" (.num "1") c7Body) baseEnv).2.renders = [.text "S  M"] ∧
    specCollapsedText "S，，M" = "S M" ∧
    ¬ (("S  M" : String) = "S M") := by
  decide

/-- C7 amended: the single-line renderer receives size_zh trimmed and with
each separator character replaced by one space (a run of k separators
becomes k spaces); exactly one render call is made. -/
theorem c7_singleline_text (env : Env) (item : String) (cnt bodyJson : Json) (n : Nat)
    (isz : ItemSize) (fb : List Nat)
    (hc : parseU32 cnt.render = some n)
    (hb : decodeBody bodyJson = .ok (some isz))
    (ht : isz.size_table = none)
    (hph : ∀ i, 1 ≤ i → i ≤ n → nonFatal (env.s3get picsBucket (photoKey item i)) = true)
    (hfont : env.s3get fontBucket fontKey = .ok fb) :
    (func (mkPayload item cnt bodyJson) env).2.renders =
      [.text (singleLineText isz.size_zh)] := by
  have he : func (mkPayload item cnt bodyJson) env =
      runWithSize env item isz (okSlots env item 1 n) := by
    rw [func_mk item cnt bodyJson env n hc, hb, fetchPhotos_all_ok env item n hph]
  rw [he]
  cases hrt : env.renderTextRes (singleLineText isz.size_zh) with
  | none => simp [runWithSize, hfont, ht, hrt]
  | some sb => simp [runWithSize, hfont, ht, hrt, buildAndPublish_renders]

theorem c7_singleline_text_witness :
    (func (mkPayload "A" (.num "1") c7WitnessBody) baseEnv).2.renders =
      [.text "S M L"] := by
  have h := c7_singleline_text baseEnv "A" (.num "1") c7WitnessBody 1
    ⟨none, none, "S，M，L"⟩ [5]
    rfl rfl rfl
    (fun i h1 h2 => by interval_cases i; decide)
    rfl
  rw [h]
  decide

/-- On the photos-only branch the trace never gains a font fetch, a render
call, or any entry beyond the numbered photo entries. -/
theorem runNoSize_trace (env : Env) (item : String) (photos : List (List Nat)) :
    (runNoSize env item photos).2.fontFetched = false ∧
    (runNoSize env item photos).2.renders = [] ∧
    ∃ bs, (runNoSize env item photos).2.entries = numberedFrom item bs 0 := by
  unfold runNoSize
  split
  · exact ⟨rfl, rfl, [], rfl⟩
  · split
    · exact ⟨rfl, rfl, [], rfl⟩
    · rename_i ents hwl
      have hshape := writeLoop_ok_shape env item photos 0 ents hwl
      repeat' split
      all_goals
        first
          | exact ⟨rfl, rfl, [], rfl⟩
          | exact ⟨rfl, rfl, photos, hshape⟩

/-- C8: with an explicit null body no font asset is fetched, no render call
is made, and every archive entry ever written is a numbered photo entry (so
the archive holds no size entry), whatever image_count and environment. -/
theorem c8_null_body_photos_only (item : String) (cnt : Json) (env : Env) :
    (func (mkPayload item cnt .null) env).2.fontFetched = false ∧
    (func (mkPayload item cnt .null) env).2.renders = [] ∧
    ∃ bs, (func (mkPayload item cnt .null) env).2.entries = numberedFrom item bs 0 := by
  cases hc : parseU32 cnt.render with
  | none =>
    rw [func_mk_count_err item cnt .null env hc]
    exact ⟨rfl, rfl, [], rfl⟩
  | some n =>
    cases hfp : fetchPhotos env item n with
    | error r =>
      have he : func (mkPayload item cnt .null) env = (.resp r, emptyTrace) := by
        rw [func_mk item cnt .null env n hc, hfp]
        rfl
      rw [he]
      exact ⟨rfl, rfl, [], rfl⟩
    | ok photos =>
      have he : func (mkPayload item cnt .null) env = runNoSize env item photos := by
        rw [func_mk item cnt .null env n hc, hfp]
        rfl
      rw [he]
      exact runNoSize_trace env item photos

/-- C9: with a SizeSpec and a fully successful run, the archive holds the
numbered photo entries first, in emission order, followed last by exactly
one size entry, and the result is ok. -/
theorem c9_photos_then_size (env : Env) (item : String) (cnt bodyJson : Json) (n : Nat)
    (isz : ItemSize) (fb : List Nat)
    (hc : parseU32 cnt.render = some n)
    (hb : decodeBody bodyJson = .ok (some isz))
    (hph : ∀ i, 1 ≤ i → i ≤ n → nonFatal (env.s3get picsBucket (photoKey item i)) = true)
    (hfont : env.s3get fontBucket fontKey = .ok fb)
    (hrdy : renderOk env isz = true)
    (hcr : env.createOk = true) (hs : ∀ s, env.zipStartOk s = true)
    (hw : ∀ s, env.zipWriteOk s = true) (hfin : env.finishOk = true)
    (ho : env.openOk = true) (hr : env.readOk = true) (hp : ∀ k, env.putOk k = true) :
    ∃ sb,
      (func (mkPayload item cnt bodyJson) env).1 = .resp ⟨"ok", ""⟩ ∧
      (func (mkPayload item cnt bodyJson) env).2.entries =
        numberedFrom item (okSlots env item 1 n) 0 ++ [(sizeEntryName item, sb)] := by
  have he : func (mkPayload item cnt bodyJson) env =
      runWithSize env item isz (okSlots env item 1 n) := by
    rw [func_mk item cnt bodyJson env n hc, hb, fetchPhotos_all_ok env item n hph]
  rw [he]
  cases hst : isz.size_table with
  | some tbl =>
    unfold renderOk at hrdy
    rw [hst] at hrdy
    simp only [Bool.and_eq_true, Option.isSome_iff_exists] at hrdy
    obtain ⟨htb, sb, hsb⟩ := hrdy
    refine ⟨sb, ?_⟩
    simp only [runWithSize, hfont, hst, htb, hsb]
    rw [buildAndPublish_all_ok env item _ sb _ hcr hs hw hfin ho hr hp]
    exact ⟨rfl, rfl⟩
  | none =>
    unfold renderOk at hrdy
    rw [hst] at hrdy
    simp only [Option.isSome_iff_exists] at hrdy
    obtain ⟨sb, hsb⟩ := hrdy
    refine ⟨sb, ?_⟩
    simp only [runWithSize, hfont, hst, hsb]
    rw [buildAndPublish_all_ok env item _ sb _ hcr hs hw hfin ho hr hp]
    exact ⟨rfl, rfl⟩

theorem c9_photos_then_size_witness :
    ∃ sb,
      (func (mkPayload "A" (.num "1") c9Body) baseEnv).1 = .resp ⟨"ok", ""⟩ ∧
      (func (mkPayload "A" (.num "1") c9Body) baseEnv).2.entries =
        numberedFrom "A" (okSlots baseEnv "A" 1 1) 0 ++ [(sizeEntryName "A", sb)] :=
  c9_photos_then_size baseEnv "A" (.num "1") c9Body 1 ⟨none, none, "L"⟩ [5]
    rfl rfl
    (fun i h1 h2 => by interval_cases i; decide)
    rfl rfl
    rfl (fun _ => rfl) (fun _ => rfl) rfl rfl rfl (fun _ => rfl)

/-- C10: whenever item_code is present but not a JSON string, the handler
panics at as_str().unwrap() (main.rs line 42) instead of returning a
Response; so a non-panicking run presupposes a string item_code. -/
theorem c10_nonstring_item_code_panics (payload : Json) (env : Env) (v : Json)
    (hget : payload.get "item_code" = some v) (hstr : asStr v = none) :
    (func payload env).1 = .panicked := by
  unfold func
  simp only [hget, hstr]

theorem c10_nonstring_item_code_witness :
    (func (.obj [("item_code", .num "5")]) baseEnv).1 = .panicked :=
  c10_nonstring_item_code_panics (.obj [("item_code", .num "5")]) baseEnv (.num "5") rfl rfl
